import Mathlib

/-!
# Verification of the NeoUdeler downloader (`neoudeler.py`, `main.py`)

A shallow embedding, in Lean 4, of the pure computational content of the
NeoUdeler course downloader.  Python strings are embedded as `String`
(char-level operations work on `String.data : List Char`), Python `None`
becomes `Option`, raised exceptions become `Except`, and side effects
(HTTP requests, filesystem writes, log records) are reified as explicit
traces of action values returned alongside the result.

Python floating point arithmetic in the progress reporter is embedded
exactly: a nonnegative finite IEEE-754 binary64 value is represented by
its exact value `mantissa · 2^exp` as a pair `ℕ × ℤ`, and every operation
the code performs on floats (`/` on two ints, `*` by a small int literal,
`int()`, `f'{x:.2f}'`) is given the correct rounding CPython gives it.
-/

namespace NeoUdeler

/-! ## Video formats and Python truthiness (`neoudeler.py`, `VideoFormat`) -/

/-- `VideoFormat(enum.StrEnum)`: the two formats Udemy serves. -/
inductive VideoFormat where
  | VIDEO_MPEG4
  | APPLICATION_X_MPEG_URL
deriving DecidableEq, Repr

/-- The string value of each `StrEnum` member
(`VIDEO_MPEG4 = 'video/mp4'`, `APPLICATION_X_MPEG_URL = 'application/x-mpegURL'`). -/
def VideoFormat.value : VideoFormat → String
  | .VIDEO_MPEG4 => "video/mp4"
  | .APPLICATION_X_MPEG_URL => "application/x-mpegURL"

/-- `VideoFormat.is_mp4`: `self == VideoFormat.VIDEO_MPEG4`. -/
def VideoFormat.is_mp4 (self : VideoFormat) : Bool :=
  self = VideoFormat.VIDEO_MPEG4

/-- `VideoFormat.is_hls`: `self == VideoFormat.APPLICATION_X_MPEG_URL`. -/
def VideoFormat.is_hls (self : VideoFormat) : Bool :=
  self = VideoFormat.APPLICATION_X_MPEG_URL

/-- Python truthiness of a `str` (and hence of a `StrEnum` member):
a string is truthy iff it is nonempty. -/
def pyStrTruthy (s : String) : Bool :=
  !s.isEmpty

/-- Python attribute access `instance.VIDEO_MPEG4` on a `StrEnum` instance:
enum members are class attributes, so accessing `VIDEO_MPEG4` through any
instance yields the class member `VideoFormat.VIDEO_MPEG4`, ignoring the
instance itself.  (This embeds the expression
`video.video_format.VIDEO_MPEG4` from `StreamUrls.get_mp4_by_quality`.) -/
def VideoFormat.attrVIDEOMPEG4 (_ : VideoFormat) : VideoFormat :=
  VideoFormat.VIDEO_MPEG4

/-! ## Videos and stream URLs (`neoudeler.py`, `Video`, `StreamUrls`) -/

/-- `@dataclasses.dataclass class Video`. -/
structure Video where
  video_format : VideoFormat
  quality_label : String
  file_url : String
deriving DecidableEq, Repr

/-- `@dataclasses.dataclass class StreamUrls`. -/
structure StreamUrls where
  videos : List Video
deriving DecidableEq, Repr

/-- The `for video in self.videos:` loop of `StreamUrls.get_mp4_by_quality`.
The loop body is, verbatim from the source:

    if not video.video_format.VIDEO_MPEG4:
        continue
    if video.quality_label == quality:
        return video

`video.video_format.VIDEO_MPEG4` is the member access embedded by
`VideoFormat.attrVIDEOMPEG4` and `not` is Python truthiness negation.
Falling out of the loop reaches `self._get_mp4_highest_quality()`, whose
result is not returned, so the Python function returns `None`. -/
def get_mp4_by_quality_loop (quality : String) : List Video → Option Video
  | [] => none
  | video :: rest =>
    if !pyStrTruthy (VideoFormat.attrVIDEOMPEG4 video.video_format).value then
      get_mp4_by_quality_loop quality rest
    else if video.quality_label = quality then
      some video
    else
      get_mp4_by_quality_loop quality rest

/-- `StreamUrls.get_mp4_by_quality(self, quality)`. -/
def StreamUrls.get_mp4_by_quality (self : StreamUrls) (quality : String) : Option Video :=
  get_mp4_by_quality_loop quality self.videos

/-- `StreamUrls._get_mp4_highest_quality(self)`:
`[v for v in sorted(self.videos, key=lambda v: v.quality_label, reverse=True)
  if v.video_format == VideoFormat.VIDEO_MPEG4]`.
Python's `sorted` is stable; with `reverse=True` it orders by descending
key, keeping equal keys in original order, which is exactly a stable merge
sort with the relation `b.quality_label ≤ a.quality_label`. -/
def StreamUrls.get_mp4_highest_quality (self : StreamUrls) : List Video :=
  (self.videos.mergeSort (fun a b => b.quality_label ≤ a.quality_label)).filter
    (fun v => v.video_format.is_mp4)

/-! ## Filename sanitizer (`neoudeler.py`, `Course._sanitize_filename`)

The first step of `_sanitize_filename` is a call to the third-party
library function `pathvalidate.sanitize_filepath`; we keep it abstract as
a parameter `pv : String → String` and prove the claimed properties for
every choice of `pv`, since the two replacement passes that follow it run
on its output. -/

/-- `filename.replace(char, '')` for a single-character pattern:
delete every occurrence of `c`. -/
def pyReplaceDelete (c : Char) (l : List Char) : List Char :=
  l.filter (fun x => x ≠ c)

/-- `filename.replace(char, r)` for a single-character pattern and a
single-character replacement: substitute `r` for every occurrence of `c`. -/
def pyReplaceChar (c r : Char) (l : List Char) : List Char :=
  l.map (fun x => if x = c then r else x)

/-- `invalid_chars = ['<', '>', ':', '"', '|', '?', '*']`. -/
def invalid_chars : List Char := ['<', '>', ':', '"', '|', '?', '*']

/-- `slash_chars = ['/', '\\']`. -/
def slash_chars : List Char := ['/', '\\']

/-- The two replacement loops of `Course._sanitize_filename`, applied to
the characters of the string returned by `pathvalidate.sanitize_filepath`:

    for char in invalid_chars:
        filename = filename.replace(char, '')
    for char in slash_chars:
        filename = filename.replace(char, '／')
-/
def sanitize_post (l : List Char) : List Char :=
  slash_chars.foldl (fun acc c => pyReplaceChar c '／' acc)
    (invalid_chars.foldl (fun acc c => pyReplaceDelete c acc) l)

/-- `Course._sanitize_filename(filename)`, with the
`pathvalidate.sanitize_filepath` library call abstracted as `pv`. -/
def sanitize_filename (pv : String → String) (filename : String) : String :=
  String.mk (sanitize_post (pv filename).data)

/-! ## Errors, logging and HTTP helpers
(`neoudeler.py`, `NeoUdelerError`, `write_log`, `check_response`, `download`) -/

/-- `NeoUdelerError`, the single domain error, with the payloads each
`raise` site passes to its constructor. -/
inductive NeoUdelerError where
  /-- `raise NeoUdelerError(f'Error with status code: {code} at {url}')`
  in `check_response`. -/
  | statusError (status_code : Nat) (url : String)
  /-- `raise NeoUdelerError('Login failed:', err...)` in
  `_check_too_many_request_error`; carries
  `err.get('data').get('errors').get('__all__')`. -/
  | loginFailed (message : String)
  /-- `raise NeoUdelerError('Not Authenticated')` in
  `fetch_subscribed_courses`. -/
  | notAuthenticated
  /-- `raise NeoUdelerError(f'{dir_path}: already exists')` in
  `mkdir_unless_already_exists`. -/
  | alreadyExists (dir_path : String)
deriving DecidableEq, Repr

/-- A `requests.Response` as far as the code observes one: the final URL,
the HTTP status code, the body bytes (`response.content`), the body split
into the chunks `response.iter_content(chunk_size=1024)` yields, the
parsed JSON where inspected, and cookies where read. -/
structure HttpResponse where
  url : String
  status_code : Nat
  content : List Nat
  chunks : List (List Nat)
deriving DecidableEq, Repr

/-- Python `logging` severity levels used here:
`logging.INFO = 20`, `logging.ERROR = 40`. -/
def LOGGING_INFO : Nat := 20

/-- `logging.ERROR = 40`. -/
def LOGGING_ERROR : Nat := 40

/-- `logging.basicConfig(filename='neo_udeler.log', level=logging.ERROR, ...)`:
the root logger's level.  `logger = logging.getLogger(__name__)` has no
level of its own, so this is the effective threshold for every record. -/
def configuredLogLevel : Nat := LOGGING_ERROR

/-- A record handed to the `logging` module: its severity and message. -/
structure LogRecord where
  level : Nat
  msg : String
deriving DecidableEq, Repr

/-- `write_log(response)`:
`logger.info(f'URL: {response.url}, HTTP status code: {response.status_code}')`
— a single record at INFO severity. -/
def write_log (response : HttpResponse) : LogRecord :=
  ⟨LOGGING_INFO, "URL: " ++ response.url ++ ", HTTP status code: "
    ++ toString response.status_code⟩

/-- The lines the `logging` module actually appends to `neo_udeler.log`:
a record is emitted iff its severity is at least the configured level. -/
def appendedLogLines (records : List LogRecord) : List String :=
  (records.filter (fun r => configuredLogLevel ≤ r.level)).map (fun r => r.msg)

/-- `check_response(response)`: raises unless the status code is 200,
calling `write_log` first on the failure path.  Returns the raised error
(if any) together with the log records produced. -/
def check_response (response : HttpResponse) :
    Except NeoUdelerError Unit × List LogRecord :=
  if response.status_code ≠ 200 then
    (.error (.statusError response.status_code response.url), [write_log response])
  else
    (.ok (), [])

/-- A filesystem effect performed by the code, reified. -/
inductive FsAction where
  /-- One `file.write(data)` call on the file opened at `path`. -/
  | write (path : String) (data : List Nat)
  /-- `os.mkdir(path)`. -/
  | mkdir (path : String)
  /-- `shutil.rmtree(path)`. -/
  | rmtree (path : String)
deriving DecidableEq, Repr

/-- `download(url, path, chunking=False)`, given the response the GET to
`url` produces.  `check_response` runs before the file is opened; on
success the body is written either as one `file.write(response.content)`
or as one write per truthy (nonempty) 1024-byte chunk.  Returns the
outcome, the filesystem actions performed, and the log records produced. -/
def download (url path : String) (chunking : Bool) (response : HttpResponse) :
    Except NeoUdelerError Unit × List FsAction × List LogRecord :=
  match check_response response with
  | (.error e, logs) => (.error e, [], logs)
  | (.ok _, logs) =>
    if chunking then
      (.ok (), (response.chunks.filter (fun chunk => !chunk.isEmpty)).map
        (fun chunk => FsAction.write path chunk), logs)
    else
      (.ok (), [FsAction.write path response.content], logs)

/-! ## Configuration store (`neoudeler.py`, `Config`) -/

/-- The `Config` singleton's relevant state: the values loaded from the
`.env` file (`dotenv.get_key` yields `None` when the key is absent).
`_access_token` is the raw stored value, before the empty-string
normalization the `access_token` property applies. -/
structure Config where
  email : Option String
  password : Option String
  sub_domain : Option String
  access_token_raw : Option String
deriving DecidableEq, Repr

/-- The `Config.access_token` property:
`self._access_token if self._access_token != '' else None` — an empty
string on disk is surfaced as `None`. -/
def Config.access_token (self : Config) : Option String :=
  match self.access_token_raw with
  | some s => if s = "" then none else some s
  | none => none

/-- The `Config.access_token` setter: stores the token (and persists it to
the `.env` file, which the state models by the same field). -/
def Config.set_access_token (self : Config) (token : Option String) : Config :=
  { self with access_token_raw := token }

/-! ## Login (`neoudeler.py`, `UdemyDownloader._login_udemy`,
`UdemyDownloader._check_too_many_request_error`) -/

/-- The nested JSON error payload of a rejected login:
`error.data.errors.__all__`. -/
structure LoginErrorPayload where
  all_message : String
deriving DecidableEq, Repr

/-- The login POST response, as observed by `_login_udemy`: beyond the
HTTP response itself, the parsed JSON `error` field (absent on success)
and the `access_token` response cookie. -/
structure LoginPostResponse where
  http : HttpResponse
  json_error : Option LoginErrorPayload
  access_token_cookie : Option String
deriving DecidableEq, Repr

/-- `UdemyDownloader._check_too_many_request_error(response)`: if the JSON
body has an `error` field, `write_log` the response and raise
`NeoUdelerError('Login failed:', err.get('data').get('errors').get('__all__'))`. -/
def check_too_many_request_error (response : LoginPostResponse) :
    Except NeoUdelerError Unit × List LogRecord :=
  match response.json_error with
  | some err => (.error (.loginFailed err.all_message), [write_log response.http])
  | none => (.ok (), [])

/-- `UdemyDownloader._login_udemy(self)`, given the responses the GET to
the base URL and the POST to the login endpoint produce.  Returns the
outcome, the configuration state after the call (the access-token write
happens only after both `check_response` calls and the error-payload check
succeed), and the log records produced. -/
def login_udemy (config : Config) (response_get : HttpResponse)
    (response_post : LoginPostResponse) :
    Except NeoUdelerError Unit × Config × List LogRecord :=
  match check_response response_get with
  | (.error e, logs) => (.error e, config, logs)
  | (.ok _, logs0) =>
    match check_response response_post.http with
    | (.error e, logs) => (.error e, config, logs0 ++ logs)
    | (.ok _, logs1) =>
      match check_too_many_request_error response_post with
      | (.error e, logs) => (.error e, config, logs0 ++ logs1 ++ logs)
      | (.ok _, logs2) =>
        (.ok (), config.set_access_token response_post.access_token_cookie,
          logs0 ++ logs1 ++ logs2)

/-! ## Course listing (`neoudeler.py`, `UdemyDownloader`) -/

/-- `UdemyDownloader._is_authenticated(self)`. -/
def is_authenticated (config : Config) : Bool :=
  config.access_token ≠ none

/-- An outbound HTTP request, as issued by the code: method, URL, query
parameters (name/value pairs, in insertion order), and cookies. -/
structure HttpRequest where
  method : String
  url : String
  params : List (String × String)
  cookies : List (String × String)
deriving DecidableEq, Repr

/-- The query parameters `fetch_subscribed_courses` sends:
`page_size=1000`, `page=1`, empty field selections, and `search` only when
a keyword is given. -/
def subscribed_courses_params (search_keyword : Option String) :
    List (String × String) :=
  [("page_size", "1000"), ("page", "1"), ("fields[course]", ""), ("fields[user]", "")]
    ++ (match search_keyword with
        | some kw => [("search", kw)]
        | none => [])

/-- `Config.udemy_base_url`: `f'https://{self._sub_domain}.udemy.com'`
(Python interpolates `None` as the text `None`; the claims never exercise
that case). -/
def Config.udemy_base_url (self : Config) : String :=
  "https://" ++ (match self.sub_domain with
                 | some s => s
                 | none => "None") ++ ".udemy.com"

/-- The authentication gate and request construction of
`UdemyDownloader.fetch_subscribed_courses(self, search_keyword=None)`:
if `_is_authenticated()` is false the call raises
`NeoUdelerError('Not Authenticated')` before any request is issued;
otherwise the subscribed-courses GET is issued with the parameters above
and the stored access token as a cookie, and `check_response` validates
the response.  Returns the outcome, the requests issued (in order), and
the log records produced.  (The successful parse of the JSON body into a
`SubscribedCourseList` is modelled separately and is irrelevant to the
gate.) -/
def fetch_subscribed_courses_gate (config : Config) (search_keyword : Option String)
    (response : HttpResponse) :
    Except NeoUdelerError Unit × List HttpRequest × List LogRecord :=
  if ¬ is_authenticated config then
    (.error .notAuthenticated, [], [])
  else
    let request : HttpRequest :=
      { method := "GET"
        url := config.udemy_base_url ++ "/api-2.0/users/me/subscribed-courses"
        params := subscribed_courses_params search_keyword
        cookies := [("access_token", (config.access_token).getD "")] }
    match check_response response with
    | (.error e, logs) => (.error e, [request], logs)
    | (.ok _, logs) => (.ok (), [request], logs)

/-! ## Content domain model (`neoudeler.py`, `AssetType`,
`CourseContentType`, `Asset`, `File`, `DownloadUrls`, `SupplementaryAssets`,
`CourseContent`) -/

/-- `AssetType(enum.StrEnum)`. -/
inductive AssetType where
  | VIDEO
  | ARTICLE
  | FILE
  | E_BOOK
  | EXTERNAL_LINK
deriving DecidableEq, Repr

/-- `CourseContentType(enum.StrEnum)`. -/
inductive CourseContentType where
  | CHAPTER
  | LECTURE
  | QUIZ
deriving DecidableEq, Repr

/-- `@dataclasses.dataclass class File`. -/
structure File where
  label : String
  file_url : String
deriving DecidableEq, Repr

/-- `@dataclasses.dataclass class DownloadUrls`. -/
structure DownloadUrls where
  files : List File
deriving DecidableEq, Repr

/-- `@dataclasses.dataclass class Asset`. -/
structure Asset where
  asset_id : Int
  asset_type : AssetType
  title : String
  description : String
  body : String
  stream_urls : Option StreamUrls
  download_urls : Option DownloadUrls
deriving DecidableEq, Repr

/-- `Asset.is_video`. -/
def Asset.is_video (self : Asset) : Bool :=
  self.asset_type = AssetType.VIDEO

/-- `Asset.is_article`. -/
def Asset.is_article (self : Asset) : Bool :=
  self.asset_type = AssetType.ARTICLE

/-- `@dataclasses.dataclass class SupplementaryAssets`. -/
structure SupplementaryAssets where
  supplementary_assets : List Asset
deriving DecidableEq, Repr

/-- `@dataclasses.dataclass class CourseContent`. -/
structure CourseContent where
  course_id : Int
  course_content_id : Int
  course_content_type : CourseContentType
  title : String
  description : String
  asset : Option Asset
  supplementary_assets : Option SupplementaryAssets
deriving DecidableEq, Repr

/-- `CourseContent.is_lecture`. -/
def CourseContent.is_lecture (self : CourseContent) : Bool :=
  self.course_content_type = CourseContentType.LECTURE

/-- `CourseContent.is_chapter`. -/
def CourseContent.is_chapter (self : CourseContent) : Bool :=
  self.course_content_type = CourseContentType.CHAPTER

/-- `CourseContent.is_quiz`. -/
def CourseContent.is_quiz (self : CourseContent) : Bool :=
  self.course_content_type = CourseContentType.QUIZ

/-! ## Progress reporter (`neoudeler.py`, `Course._print_progress`)

Python float arithmetic is embedded exactly.  A nonnegative finite
IEEE-754 binary64 value is represented by its exact value
`mantissa · 2^exp` as a pair `(m, e) : ℕ × ℤ`; `roundB64` performs
round-to-nearest, ties-to-even at 53 significant bits with gradual
underflow below `2^-1022` — precisely the rounding CPython applies to
`int / int` true division and to a float-by-int product.  (Values at or
above `2^1024` would overflow to infinity and are not modelled; every
float in `_print_progress` stays below `101 · 2^53`.)  Negative values
never occur here. -/

/-- Round `a / b` to the nearest natural number, ties to even
(`b > 0`). -/
def rheNat (a b : ℕ) : ℕ :=
  let q := a / b
  let r := a % b
  if 2 * r < b then q
  else if b < 2 * r then q + 1
  else if q % 2 = 0 then q else q + 1

/-- Bit length of a natural number (`fuel`-driven recursion; called with
`fuel = n`, enough since the length is at most `n`). -/
def bitlen : ℕ → ℕ → ℕ
  | 0, _ => 0
  | fuel + 1, n => if n = 0 then 0 else bitlen fuel (n / 2) + 1

/-- `⌊log₂ (n / d)⌋` for positive naturals `n`, `d`. -/
def ratLog2 (n d : ℕ) : ℤ :=
  let s : ℤ := (bitlen n n : ℤ) - (bitlen d d : ℤ)
  if 0 ≤ s then (if d * 2 ^ s.toNat ≤ n then s else s - 1)
  else (if d ≤ n * 2 ^ (-s).toNat then s else s - 1)

/-- Correctly round the exact nonnegative rational `(n / d) · 2^t` to a
binary64 value, returned as its exact value `(mantissa, exponent)`:
round-to-nearest ties-to-even at 53 significant bits, with the exponent
floored at `-1022` so that values below `2^-1022` lose precision
gradually (subnormals), underflowing to `0` below `2^-1075`. -/
def roundB64 (n d : ℕ) (t : ℤ) : ℕ × ℤ :=
  if n = 0 then (0, 0)
  else
    let e : ℤ := ratLog2 n d + t
    let e' : ℤ := if e < -1022 then (-1022 : ℤ) else e
    let shift : ℤ := 52 - e' + t
    let m : ℕ := if 0 ≤ shift then rheNat (n * 2 ^ shift.toNat) d
                 else rheNat n (d * 2 ^ (-shift).toNat)
    (m, e' - 52)

/-- Python `a / b` on two nonnegative ints: true division, correctly
rounded to binary64 (CPython's `int.__truediv__`). -/
def pyDivF64 (a b : ℕ) : ℕ × ℤ := roundB64 a b 0

/-- Python `x * k` for a nonnegative float `x` and small int literal `k`
(here 50 and 100, exactly representable): the exact product, correctly
rounded to binary64. -/
def pyMulIntF64 (x : ℕ × ℤ) (k : ℕ) : ℕ × ℤ := roundB64 (x.1 * k) 1 x.2

/-- Python `int(x)` for a nonnegative float `x`: truncation toward zero,
which is the floor. -/
def pyIntF64 (x : ℕ × ℤ) : ℕ :=
  if 0 ≤ x.2 then x.1 * 2 ^ x.2.toNat else x.1 / 2 ^ (-x.2).toNat

/-- Python `f'{x:.2f}'` for a nonnegative float `x`: the exact value of
the double, rounded to a whole number of hundredths with ties to even
(CPython formats with the correctly rounded decimal expansion of the
exact value), printed with exactly two fractional digits. -/
def formatFixed2 (x : ℕ × ℤ) : String :=
  let n : ℕ := if 0 ≤ x.2 then x.1 * 100 * 2 ^ x.2.toNat
               else rheNat (x.1 * 100) (2 ^ (-x.2).toNat)
  toString (n / 100) ++ "."
    ++ (if n % 100 < 10 then "0" ++ toString (n % 100) else toString (n % 100))

/-- The float `current / total` computed by `_print_progress`. -/
def progress_ratio (total current : ℕ) : ℕ × ℤ :=
  pyDivF64 current total

/-- The float `(current / total) * 100`, the percentage
`_print_progress` formats. -/
def progress_percentage (total current : ℕ) : ℕ × ℤ :=
  pyMulIntF64 (progress_ratio total current) 100

/-- `int((current / total) * progress_length)`, the filled-segment
length of the bar. -/
def progress_filled (total current : ℕ) : ℕ :=
  pyIntF64 (pyMulIntF64 (progress_ratio total current) 50)

/-- `Course._print_progress(total, current)`: the single line printed
(with a trailing carriage return, not modelled). -/
def print_progress (total current : ℕ) : String :=
  let progress_length : ℕ := 50
  let ratio : ℕ × ℤ := pyDivF64 current total
  let progress_percentage : ℕ × ℤ := pyMulIntF64 ratio 100
  let progress_bar_filled : String :=
    String.mk (List.replicate (pyIntF64 (pyMulIntF64 ratio progress_length)) '=')
  let progress_bar_empty : String :=
    String.mk (List.replicate (progress_length - progress_bar_filled.length) ' ')
  formatFixed2 progress_percentage ++ " %: [" ++ progress_bar_filled ++ ">"
    ++ progress_bar_empty ++ "]"

/-! ## The download walk (`neoudeler.py`, `Course.download_all_contents`)

The walk over the fetched content list (source lines 374–440), with the
filesystem reified: `isdir` answers the `os.path.isdir` probes, and every
effect becomes a `WalkAction`.  The inner `download(...)` calls are
recorded as actions; their own HTTP validation is modelled by `download`
above and is orthogonal to the walk-structure claims.  An uncaught Python
`AttributeError` — attribute access on `None` — aborts the walk; the
actions performed before the abort are kept, paired with the error. -/

/-- Python `AttributeError`, as raised by attribute access on `None`. -/
inductive PyError where
  | attributeError (message : String)
deriving DecidableEq, Repr

/-- `str.zfill(width)` for the digit strings used here: left-pad with
`'0'` to `width` characters. -/
def zfill (s : String) (width : ℕ) : String :=
  if width ≤ s.length then s
  else String.mk (List.replicate (width - s.length) '0') ++ s

/-- `os.path.join(a, b)` for the relative, separator-free segments used
here. -/
def os_path_join (a b : String) : String :=
  a ++ "/" ++ b

/-- One reified effect of the walk. -/
inductive WalkAction where
  /-- `self._print_progress(total=total, current=current)`. -/
  | printProgressA (total current : ℕ)
  /-- `shutil.rmtree(path)`. -/
  | rmtreeA (path : String)
  /-- `os.mkdir(path)`. -/
  | mkdirA (path : String)
  /-- A `download(url, path, chunking)` call. -/
  | downloadA (url path : String) (chunking : Bool)
  /-- Writing rendered article HTML to `path`. -/
  | writeHtmlA (path : String) (html : String)
  /-- The two `print`s of the `except AttributeError` handler
  (`... is not available for download` / `may be DRM-protected`). -/
  | printNotAvailableA (title : String) (lecture_number : ℕ)
deriving DecidableEq, Repr

/-- The mutable loop state of `download_all_contents`. -/
structure WalkState where
  chapter_number : ℕ
  lecture_number : ℕ
  chapter_dir : String
deriving DecidableEq, Repr

/-- The `try`/`except AttributeError` block of the video case:

    video = content.asset.stream_urls.get_mp4_by_quality('720')
    download(url=video.file_url, path=..., chunking=True)

If `stream_urls` is `None`, the `get_mp4_by_quality` attribute access
raises `AttributeError`; if the quality lookup returns `None`,
`video.file_url` raises `AttributeError`; both are caught by the handler,
which prints the two "not available / may be DRM-protected" lines and
lets the walk continue. -/
def lecture_video_step (pv : String → String) (save_dir : String)
    (st : WalkState) (content_title : String) (a : Asset) : List WalkAction :=
  match a.stream_urls with
  | none => [.printNotAvailableA content_title st.lecture_number]
  | some su =>
    match su.get_mp4_by_quality "720" with
    | none => [.printNotAvailableA content_title st.lecture_number]
    | some video =>
      [.downloadA video.file_url
        (os_path_join save_dir (os_path_join st.chapter_dir
          (toString st.lecture_number ++ "_" ++ sanitize_filename pv content_title
            ++ ".mp4")))
        true]

/-- The supplementary-assets loop of a lecture entry: for each
supplementary asset, download every stream video (the `chunking` argument
is omitted, so `False`) and every download-URL file (`chunking=False`),
each to the sanitized supplementary-asset title under the current chapter
directory. -/
def supplementary_assets_step (pv : String → String) (save_dir chapter_dir : String)
    (assets : List Asset) : List WalkAction :=
  (assets.map (fun s_asset =>
    (match s_asset.stream_urls with
     | some su => su.videos.map (fun video =>
         WalkAction.downloadA video.file_url
           (os_path_join save_dir (os_path_join chapter_dir
             (sanitize_filename pv s_asset.title)))
           false)
     | none => [])
    ++ (match s_asset.download_urls with
        | some du => du.files.map (fun file =>
            WalkAction.downloadA file.file_url
              (os_path_join save_dir (os_path_join chapter_dir
                (sanitize_filename pv s_asset.title)))
              false)
        | none => []))).flatten

/-- One iteration of the `for current, content in enumerate(contents,
start=1)` loop: progress report, then the chapter branch, then the
lecture branch.  In the lecture branch, `content.asset.is_video()` with
`asset = None`, and `content.supplementary_assets.supplementary_assets`
with `supplementary_assets = None`, raise uncaught `AttributeError`s (they
sit outside the `try` block). -/
def process_content (pv : String → String) (isdir : String → Bool)
    (save_dir : String) (total width current : ℕ) (st : WalkState)
    (content : CourseContent) : List WalkAction × Except PyError WalkState :=
  let acts0 : List WalkAction := [.printProgressA total current]
  let chapterStep : List WalkAction × WalkState :=
    if content.is_chapter then
      let raw_chapter_dir :=
        zfill (toString st.chapter_number) width ++ "_" ++ content.title
      let chapter_dir := sanitize_filename pv raw_chapter_dir
      let path := os_path_join save_dir chapter_dir
      ((if isdir path then [.rmtreeA path] else []) ++ [.mkdirA path],
       { st with chapter_number := st.chapter_number + 1, chapter_dir := chapter_dir })
    else ([], st)
  let acts1 := chapterStep.1
  let st1 := chapterStep.2
  if content.is_lecture then
    match content.asset with
    | none =>
      (acts0 ++ acts1,
       .error (.attributeError "'NoneType' object has no attribute 'is_video'"))
    | some a =>
      let actsVideo :=
        if a.is_video then lecture_video_step pv save_dir st1 content.title a else []
      let actsArticle :=
        if a.is_article then
          [WalkAction.writeHtmlA
            (os_path_join save_dir (os_path_join st1.chapter_dir
              (content.title ++ ".html")))
            (if pyStrTruthy a.body then a.body else a.description)]
        else []
      match content.supplementary_assets with
      | none =>
        (acts0 ++ acts1 ++ actsVideo ++ actsArticle,
         .error (.attributeError
           "'NoneType' object has no attribute 'supplementary_assets'"))
      | some sa =>
        (acts0 ++ acts1 ++ actsVideo ++ actsArticle
           ++ supplementary_assets_step pv save_dir st1.chapter_dir
               sa.supplementary_assets,
         .ok { st1 with lecture_number := st1.lecture_number + 1 })
  else
    (acts0 ++ acts1, .ok st1)

/-- The walk over the remaining contents, starting at 1-based index
`current` in state `st`: the actions performed, paired with the abort
error if an uncaught exception ends the walk early. -/
def download_loop (pv : String → String) (isdir : String → Bool)
    (save_dir : String) (total width : ℕ) :
    ℕ → WalkState → List CourseContent → List WalkAction × Option PyError
  | _, _, [] => ([], none)
  | current, st, content :: rest =>
    match process_content pv isdir save_dir total width current st content with
    | (acts, .error e) => (acts, some e)
    | (acts, .ok st') =>
      let tail := download_loop pv isdir save_dir total width (current + 1) st' rest
      (acts ++ tail.1, tail.2)

/-- `dirname_prefix_digits = len(str(total))`. -/
def dirname_prefix_digits (total : ℕ) : ℕ :=
  (toString total).length

/-- The initial current-chapter directory name,
`f'{str(0).zfill(dirname_prefix_digits)}_init'`. -/
def init_chapter_dir (width : ℕ) : String :=
  zfill (toString 0) width ++ "_init"

/-- The loop portion of `Course.download_all_contents` (source lines
374–440): state initialization (`chapter_number = 1`, `lecture_number = 1`,
the default `_init` chapter directory) followed by the walk over the whole
content list. -/
def download_all_contents_walk (pv : String → String) (isdir : String → Bool)
    (save_dir : String) (contents : List CourseContent) :
    List WalkAction × Option PyError :=
  let total := contents.length
  let width := dirname_prefix_digits total
  download_loop pv isdir save_dir total width 1
    ⟨1, 1, init_chapter_dir width⟩ contents

/-! ## Theorems -/

/-- The loop of `get_mp4_by_quality` returns `none` when no video in the
list carries the requested quality label (the format pre-filter never
fires, and the fallback value computed after the loop is not returned). -/
theorem get_mp4_by_quality_loop_eq_none (quality : String) (l : List Video)
    (h : ∀ v ∈ l, v.quality_label ≠ quality) :
    get_mp4_by_quality_loop quality l = none := by
  induction l with
  | nil => rfl
  | cons v rest ih =>
    have hv : v.quality_label ≠ quality := h v (List.mem_cons_self v rest)
    have hrest : ∀ w ∈ rest, w.quality_label ≠ quality :=
      fun w hw => h w (List.mem_cons_of_mem v hw)
    simp [get_mp4_by_quality_loop, pyStrTruthy, VideoFormat.attrVIDEOMPEG4,
      VideoFormat.value, hv, ih hrest]

/-- C9: for every `StreamUrls` and quality label with no exact
quality-label match among the variants, `get_mp4_by_quality` returns
`none`: the `_get_mp4_highest_quality()` fallback expression on the last
line is evaluated but its value is not returned, so the Python function
falls through to an implicit `return None`. -/
theorem get_mp4_by_quality_no_match_returns_none (su : StreamUrls) (q : String)
    (h : ∀ v ∈ su.videos, v.quality_label ≠ q) :
    su.get_mp4_by_quality q = none :=
  get_mp4_by_quality_loop_eq_none q su.videos h

/-- Witness for C9: a stream list holding a single mp4 variant labeled
`"480"`; the lookup for `"720"` returns `none`, even though the
highest-quality fallback list is nonempty (its result is discarded). -/
theorem get_mp4_by_quality_no_match_returns_none_witness :
    (∀ v ∈ (StreamUrls.mk [⟨.VIDEO_MPEG4, "480", "u480"⟩]).videos,
        v.quality_label ≠ "720")
    ∧ (StreamUrls.mk [⟨.VIDEO_MPEG4, "480", "u480"⟩]).get_mp4_by_quality "720" = none
    ∧ (StreamUrls.mk [⟨.VIDEO_MPEG4, "480", "u480"⟩]).get_mp4_highest_quality ≠ [] :=
  ⟨by decide,
   get_mp4_by_quality_no_match_returns_none
     (StreamUrls.mk [⟨.VIDEO_MPEG4, "480", "u480"⟩]) "720" (by decide),
   by simp [StreamUrls.get_mp4_highest_quality, VideoFormat.is_mp4]⟩

/-- C1: the mp4-only filter of `get_mp4_by_quality` never fires.  The
guard `if not video.video_format.VIDEO_MPEG4: continue` tests the
truthiness of the enum member `VideoFormat.VIDEO_MPEG4` itself (a
nonempty string, hence always truthy) rather than whether the variant's
format is mp4, so non-mp4 variants are considered too: on a list holding
an HLS `"720"` variant before an mp4 `"720"` variant, the HLS variant is
returned.  The claim's own concrete example (two mp4 variants `"480"` and
`"720"`) does return the `"720"` mp4 variant. -/
theorem get_mp4_by_quality_ignores_format :
    (StreamUrls.mk [⟨.APPLICATION_X_MPEG_URL, "720", "hls-url"⟩,
        ⟨.VIDEO_MPEG4, "720", "mp4-url"⟩]).get_mp4_by_quality "720"
      = some ⟨.APPLICATION_X_MPEG_URL, "720", "hls-url"⟩
    ∧ VideoFormat.is_mp4 .APPLICATION_X_MPEG_URL = false
    ∧ (StreamUrls.mk [⟨.VIDEO_MPEG4, "480", "u480"⟩,
        ⟨.VIDEO_MPEG4, "720", "u720"⟩]).get_mp4_by_quality "720"
      = some ⟨.VIDEO_MPEG4, "720", "u720"⟩ := by
  refine ⟨?_, by decide, ?_⟩ <;> rfl

/-- C2 counterexample: a successful (HTTP 200) download GET appends no
line to `neo_udeler.log` — `check_response` only calls `write_log` on the
failure path, so the claim that every outbound request results in one
appended line fails already on this concrete successful request.  (Even
the failure-path record would be filtered: see the amended theorem.) -/
theorem successful_request_appends_no_log_line :
    download "https://acme.udemy.com/" "video.mp4" false
        ⟨"https://acme.udemy.com/", 200, [7, 7], [[7, 7]]⟩
      = (.ok (), [.write "video.mp4" [7, 7]], [])
    ∧ appendedLogLines
        (download "https://acme.udemy.com/" "video.mp4" false
          ⟨"https://acme.udemy.com/", 200, [7, 7], [[7, 7]]⟩).2.2 = [] := by
  constructor <;> rfl

/-- C2 amended: `write_log` is invoked only on failure paths —
`check_response` calls it exactly when the status code is not 200, and the
login error-payload check calls it exactly when the 200 response carries a
JSON `error` field.  The record it produces does hold
`URL: {url}, HTTP status code: {code}`, but at INFO severity; since
`logging.basicConfig` sets the level to ERROR, the record is filtered and
no line is ever appended to `neo_udeler.log`. -/
theorem write_log_only_on_failure_and_filtered (response : HttpResponse)
    (lp : LoginPostResponse) :
    ((check_response response).2
      = if response.status_code = 200 then [] else [write_log response])
    ∧ ((check_too_many_request_error lp).2
      = match lp.json_error with
        | some _ => [write_log lp.http]
        | none => [])
    ∧ (write_log response).msg
      = "URL: " ++ response.url ++ ", HTTP status code: "
          ++ toString response.status_code
    ∧ (write_log response).level = LOGGING_INFO
    ∧ appendedLogLines [write_log response] = []
    ∧ appendedLogLines (check_response response).2 = []
    ∧ appendedLogLines (check_too_many_request_error lp).2 = [] := by
  refine ⟨?_, ?_, rfl, rfl, rfl, ?_, ?_⟩
  · by_cases h : response.status_code = 200 <;>
      simp [check_response, h]
  · cases hj : lp.json_error <;> simp [check_too_many_request_error, hj]
  · by_cases h : response.status_code = 200 <;>
      simp [check_response, h, appendedLogLines, write_log, configuredLogLevel,
        LOGGING_ERROR, LOGGING_INFO]
  · cases hj : lp.json_error <;>
      simp [check_too_many_request_error, hj, appendedLogLines, write_log,
        configuredLogLevel, LOGGING_ERROR, LOGGING_INFO]

/-- C3: when the login POST comes back with HTTP 200 but its JSON body
carries an `error` field, `_login_udemy` raises
`NeoUdelerError('Login failed:', ...)` with the nested validation message
`error.data.errors.__all__`, and the configuration state — including the
stored access token — is unchanged: the `access_token` write on the last
line of `_login_udemy` is never reached. -/
theorem login_error_payload_raises_and_writes_no_token (config : Config)
    (response_get : HttpResponse) (response_post : LoginPostResponse)
    (err : LoginErrorPayload)
    (hget : response_get.status_code = 200)
    (hpost : response_post.http.status_code = 200)
    (herr : response_post.json_error = some err) :
    (login_udemy config response_get response_post).1
      = .error (.loginFailed err.all_message)
    ∧ (login_udemy config response_get response_post).2.1 = config := by
  constructor <;>
    simp [login_udemy, check_response, check_too_many_request_error,
      hget, hpost, herr]

/-- Witness for C3: a concrete rejected-with-200 login leaves the stored
token untouched and fails with the nested message. -/
theorem login_error_payload_raises_and_writes_no_token_witness :
    (login_udemy ⟨some "a@b.c", some "pw", some "acme", some "oldtoken"⟩
        ⟨"https://acme.udemy.com", 200, [], []⟩
        ⟨⟨"https://acme.udemy.com/join/login-popup/", 200, [], []⟩,
          some ⟨"Too many requests"⟩, some "newtoken"⟩).1
      = .error (.loginFailed "Too many requests")
    ∧ (login_udemy ⟨some "a@b.c", some "pw", some "acme", some "oldtoken"⟩
        ⟨"https://acme.udemy.com", 200, [], []⟩
        ⟨⟨"https://acme.udemy.com/join/login-popup/", 200, [], []⟩,
          some ⟨"Too many requests"⟩, some "newtoken"⟩).2.1
      = ⟨some "a@b.c", some "pw", some "acme", some "oldtoken"⟩ :=
  login_error_payload_raises_and_writes_no_token
    ⟨some "a@b.c", some "pw", some "acme", some "oldtoken"⟩
    ⟨"https://acme.udemy.com", 200, [], []⟩
    ⟨⟨"https://acme.udemy.com/join/login-popup/", 200, [], []⟩,
      some ⟨"Too many requests"⟩, some "newtoken"⟩
    ⟨"Too many requests"⟩ rfl rfl rfl

/-- C4: `download` validates the response before opening the destination
file: any status code other than 200 raises
`NeoUdelerError(f'Error with status code: {code} at {url}')` carrying the
status code and the offending URL, and no filesystem write is performed —
in the non-chunked case (as the claim states) and in fact in the chunked
case as well, since `check_response` runs before `open`. -/
theorem download_non_200_raises_and_writes_nothing (url path : String)
    (chunking : Bool) (response : HttpResponse)
    (h : response.status_code ≠ 200) :
    download url path chunking response
      = (.error (.statusError response.status_code response.url), [],
         [write_log response]) := by
  simp [download, check_response, h]

/-- Witness for C4: a concrete 404 response aborts the download with the
status code and URL in the error, and produces no write. -/
theorem download_non_200_raises_and_writes_nothing_witness :
    (404 : Nat) ≠ 200
    ∧ download "https://acme.udemy.com/f" "out.bin" false
        ⟨"https://acme.udemy.com/f", 404, [1], [[1]]⟩
      = (.error (.statusError 404 "https://acme.udemy.com/f"), [],
         [write_log ⟨"https://acme.udemy.com/f", 404, [1], [[1]]⟩]) :=
  ⟨by decide,
   download_non_200_raises_and_writes_nothing "https://acme.udemy.com/f" "out.bin"
     false ⟨"https://acme.udemy.com/f", 404, [1], [[1]]⟩ (by decide)⟩

/-- C5: with no usable stored access token — the raw stored value absent
or the empty string — `fetch_subscribed_courses` raises
`NeoUdelerError('Not Authenticated')` and issues no HTTP request (in
particular it does not attempt another login), whatever the search
keyword. -/
theorem fetch_subscribed_courses_not_authenticated (config : Config)
    (search_keyword : Option String) (response : HttpResponse)
    (h : config.access_token_raw = none ∨ config.access_token_raw = some "") :
    fetch_subscribed_courses_gate config search_keyword response
      = (.error .notAuthenticated, [], []) := by
  have htok : config.access_token = none := by
    rcases h with h | h <;> simp [Config.access_token, h]
  simp [fetch_subscribed_courses_gate, is_authenticated, htok]

/-- Witness for C5: an empty-string token on disk, with and without a
search keyword, fails fast with no request issued. -/
theorem fetch_subscribed_courses_not_authenticated_witness :
    ((⟨some "a@b.c", some "pw", some "acme", some ""⟩ : Config).access_token_raw = none
      ∨ (⟨some "a@b.c", some "pw", some "acme", some ""⟩ : Config).access_token_raw
          = some "")
    ∧ fetch_subscribed_courses_gate ⟨some "a@b.c", some "pw", some "acme", some ""⟩
        (some "python") ⟨"https://acme.udemy.com", 200, [], []⟩
      = (.error .notAuthenticated, [], [])
    ∧ fetch_subscribed_courses_gate ⟨some "a@b.c", some "pw", some "acme", none⟩
        none ⟨"https://acme.udemy.com", 200, [], []⟩
      = (.error .notAuthenticated, [], []) :=
  ⟨Or.inr rfl,
   fetch_subscribed_courses_not_authenticated _ _ _ (Or.inr rfl),
   fetch_subscribed_courses_not_authenticated _ _ _ (Or.inl rfl)⟩

/-- The two replacement passes of `_sanitize_filename`, in closed form:
drop the seven forbidden characters, then send both slash variants to the
full-width slash. -/
theorem sanitize_post_eq (l : List Char) :
    sanitize_post l
      = (l.filter (fun c => !invalid_chars.contains c)).map
          (fun c => if slash_chars.contains c then '／' else c) := by
  simp only [sanitize_post, invalid_chars, slash_chars, List.foldl_cons, List.foldl_nil,
    pyReplaceDelete, pyReplaceChar, List.filter_filter, List.map_map]
  have hP : (fun a => decide (a ≠ '*') &&
        (decide (a ≠ '?') &&
          (decide (a ≠ '|') &&
            (decide (a ≠ '"') &&
              (decide (a ≠ ':') && (decide (a ≠ '>') && decide (a ≠ '<')))))))
      = (fun c : Char => ! (['<', '>', ':', '"', '|', '?', '*'].contains c)) := by
    funext c
    rw [Bool.eq_iff_iff]
    simp
    tauto
  have hG : ((fun x => if x = '\\' then '／' else x)
        ∘ fun x : Char => if x = '/' then '／' else x)
      = (fun c : Char => if ['/', '\\'].contains c then '／' else c) := by
    funext c
    by_cases h1 : c = '/' <;> by_cases h2 : c = '\\' <;> simp_all [Function.comp]
  rw [hP, hG]

/-- C6: for every abstracted `pathvalidate` pass `pv` and every input, the
output of `_sanitize_filename` contains none of `< > : " | ? *` and no raw
slash of either variant; the final string is exactly the post-`pv` string
with the seven forbidden characters dropped and both slash variants
replaced by the full-width slash `／`; and the function is deterministic
(equal inputs give equal outputs; it performs no I/O and has no error
case, being a total function). -/
theorem sanitize_filename_props (pv : String → String) (s : String) :
    (∀ c ∈ (sanitize_filename pv s).data, c ∉ invalid_chars ∧ c ≠ '/' ∧ c ≠ '\\')
    ∧ (sanitize_filename pv s).data
        = ((pv s).data.filter (fun c => !invalid_chars.contains c)).map
            (fun c => if slash_chars.contains c then '／' else c)
    ∧ (∀ t, s = t → sanitize_filename pv s = sanitize_filename pv t) := by
  have hdata : (sanitize_filename pv s).data = sanitize_post (pv s).data := rfl
  refine ⟨?_, by rw [hdata, sanitize_post_eq], fun t ht => by rw [ht]⟩
  intro c hc
  rw [hdata, sanitize_post_eq] at hc
  obtain ⟨d, hd, rfl⟩ := List.mem_map.mp hc
  have hdn : !invalid_chars.contains d := (List.mem_filter.mp hd).2
  by_cases hs : slash_chars.contains d
  · simp only [hs, if_pos]
    refine ⟨by decide, by decide, by decide⟩
  · simp only [hs, if_neg, Bool.false_eq_true, not_false_eq_true]
    refine ⟨by simpa using hdn, ?_, ?_⟩ <;>
      · intro hde
        subst hde
        simp [slash_chars] at hs

/-- Witness for C6 on the spec's own example `"A/B:C"` (with `pv = id`):
the output is `"A／BC"`, free of the forbidden characters, with the slash
replaced by `／`. -/
theorem sanitize_filename_props_witness :
    (∀ c ∈ (sanitize_filename id "A/B:C").data, c ∉ invalid_chars ∧ c ≠ '/' ∧ c ≠ '\\')
    ∧ sanitize_filename id "A/B:C" = sanitize_filename id "A/B:C"
    ∧ sanitize_filename id "A/B:C" = "A／BC" :=
  ⟨(sanitize_filename_props id "A/B:C").1,
   (sanitize_filename_props id "A/B:C").2.2 "A/B:C" rfl,
   by decide⟩

/-- C7 counterexample: the filled segment is not `⌊50·current/total⌋` and
the percentage is not rounded half-up.  At `total = 50, current = 29` the
program computes `int((29/50) * 50) = int(28.999999999999996) = 28`
filled `'='` — one less than `⌊50·29/50⌋ = 29` — because `29/50` rounds
below `0.58` in binary64; and at `total = 32, current = 1` the percentage
is the exact double `3.125`, which `f'{...:.2f}'` renders as `"3.12"`
(ties to even), not `"3.13"`. -/
theorem print_progress_not_exact_floor :
    progress_filled 50 29 = 28
    ∧ (50 * 29) / 50 = 29
    ∧ formatFixed2 (progress_percentage 32 1) = "3.12"
    ∧ print_progress 50 29
      = "58.00 %: [" ++ String.mk (List.replicate 28 '=') ++ ">"
        ++ String.mk (List.replicate 22 ' ') ++ "]" := by
  refine ⟨by decide, by decide, by decide, by decide⟩

/-- C7 amended: for `1 ≤ current ≤ total`, the rendered line is the
binary64-computed percentage `(current/total)·100` formatted to two
decimal places (ties to even), then `" %: ["`, then
`int((current/total)·50)` copies of `'='` — computed in binary64, which
can be one less than `⌊50·current/total⌋` — then the `'>'` marker, spaces
padding the bar to 50 characters, and `']'`.  The claim's boundary
examples do hold: at `total=50, current=1` the line is `2.00 %` with
exactly one `'='`, and at `total=50, current=50` it is `100.00 %` with
fifty `'='` and no trailing space. -/
theorem print_progress_float_spec (total current : ℕ) (h1 : 1 ≤ total)
    (h2 : 1 ≤ current) (h3 : current ≤ total) :
    (print_progress total current
      = formatFixed2 (progress_percentage total current) ++ " %: ["
        ++ String.mk (List.replicate (progress_filled total current) '=') ++ ">"
        ++ String.mk (List.replicate (50 - progress_filled total current) ' ')
        ++ "]")
    ∧ print_progress 50 1 = "2.00 %: [=>" ++ String.mk (List.replicate 49 ' ') ++ "]"
    ∧ print_progress 50 50
      = "100.00 %: [" ++ String.mk (List.replicate 50 '=') ++ ">]" := by
  refine ⟨?_, by decide, by decide⟩
  simp [print_progress, progress_percentage, progress_filled, progress_ratio,
    String.length]

/-- Witness for C7 at `total = 50`, `current = 1`. -/
theorem print_progress_float_spec_witness :
    1 ≤ (50 : ℕ) ∧ 1 ≤ (1 : ℕ) ∧ (1 : ℕ) ≤ 50
    ∧ print_progress 50 1
      = formatFixed2 (progress_percentage 50 1) ++ " %: ["
        ++ String.mk (List.replicate (progress_filled 50 1) '=') ++ ">"
        ++ String.mk (List.replicate (50 - progress_filled 50 1) ' ') ++ "]" :=
  ⟨by decide, by decide, by decide,
   (print_progress_float_spec 50 1 (by decide) (by decide) (by decide)).1⟩

/-- `Nat.digitChar` of a value below 10 is a decimal digit. -/
theorem digitChar_isDigit (m : ℕ) (h : m < 10) : (Nat.digitChar m).isDigit = true := by
  interval_cases m <;> decide

/-- Every character `Nat.toDigitsCore 10` produces is a decimal digit. -/
theorem toDigitsCore_isDigit (fuel : ℕ) : ∀ (n : ℕ) (ds : List Char),
    (∀ c ∈ ds, c.isDigit = true) →
    ∀ c ∈ Nat.toDigitsCore 10 fuel n ds, c.isDigit = true := by
  induction fuel with
  | zero =>
    intro n ds hds
    simpa [Nat.toDigitsCore] using hds
  | succ fuel ih =>
    intro n ds hds c hc
    have hd : (Nat.digitChar (n % 10)).isDigit = true :=
      digitChar_isDigit _ (Nat.mod_lt _ (by norm_num))
    rw [Nat.toDigitsCore] at hc
    by_cases h0 : n / 10 = 0
    · simp only [h0, if_true] at hc
      rcases List.mem_cons.mp hc with rfl | hmem
      · exact hd
      · exact hds c hmem
    · simp only [h0, if_false] at hc
      refine ih (n / 10) (Nat.digitChar (n % 10) :: ds) ?_ c hc
      intro d hdmem
      rcases List.mem_cons.mp hdmem with rfl | hmem
      · exact hd
      · exact hds d hmem

/-- Every character of the decimal rendering `str(n)` of a natural number
is a digit. -/
theorem toString_nat_isDigit (n : ℕ) : ∀ c ∈ (toString n).data, c.isDigit = true := by
  have h : (toString n).data = Nat.toDigitsCore 10 (n + 1) n [] := rfl
  rw [h]
  exact toDigitsCore_isDigit (n + 1) n [] (by simp)

/-- A decimal digit or an underscore is neither one of the seven removed
characters nor a slash variant. -/
theorem digit_underscore_not_special (c : Char) (h : c.isDigit = true ∨ c = '_') :
    invalid_chars.contains c = false ∧ slash_chars.contains c = false := by
  rcases h with h | rfl
  · constructor
    · by_contra hc
      rw [Bool.not_eq_false] at hc
      have hm : c ∈ invalid_chars := by simpa using hc
      simp only [invalid_chars, List.mem_cons, List.not_mem_nil, or_false] at hm
      rcases hm with rfl | rfl | rfl | rfl | rfl | rfl | rfl <;>
        exact absurd h (by decide)
    · by_contra hc
      rw [Bool.not_eq_false] at hc
      have hm : c ∈ slash_chars := by simpa using hc
      simp only [slash_chars, List.mem_cons, List.not_mem_nil, or_false] at hm
      rcases hm with rfl | rfl <;> exact absurd h (by decide)
  · decide

/-- Every character of the directory-name prefix
`str(k).zfill(width) + '_'` is a digit or an underscore. -/
theorem zfill_prefix_chars (k width : ℕ) :
    ∀ c ∈ (zfill (toString k) width ++ "_").data, c.isDigit = true ∨ c = '_' := by
  intro c hc
  rw [String.data_append] at hc
  rcases List.mem_append.mp hc with hc | hc
  · left
    unfold zfill at hc
    split at hc
    · exact toString_nat_isDigit k c hc
    · rw [String.data_append] at hc
      rcases List.mem_append.mp hc with hc' | hc'
      · have h0 : c = '0' := List.eq_of_mem_replicate hc'
        subst h0
        decide
      · exact toString_nat_isDigit k c hc'
  · right
    simpa using hc

/-- When the abstract `pathvalidate` pass commutes with a digit/underscore
prefix, so does the whole sanitizer: the prefix passes through the
character removal and slash replacement untouched. -/
theorem sanitize_filename_append (pv : String → String) (p t : String)
    (hp : ∀ c ∈ p.data, c.isDigit = true ∨ c = '_')
    (hpv : pv (p ++ t) = p ++ pv t) :
    sanitize_filename pv (p ++ t) = p ++ sanitize_filename pv t := by
  apply String.ext
  show sanitize_post (pv (p ++ t)).data = (p ++ String.mk (sanitize_post (pv t).data)).data
  rw [hpv, String.data_append, String.data_append, sanitize_post_eq, sanitize_post_eq,
    List.filter_append, List.map_append]
  congr 1
  have hfilter : p.data.filter (fun c => !invalid_chars.contains c) = p.data := by
    rw [List.filter_eq_self]
    intro c hc
    simpa using (digit_underscore_not_special c (hp c hc)).1
  rw [hfilter]
  have hmap : ∀ c ∈ p.data,
      (if slash_chars.contains c then '／' else c) = c := by
    intro c hc
    have h2 : ¬ c ∈ slash_chars := by
      simpa using (digit_underscore_not_special c (hp c hc)).2
    simp [h2]
  rw [List.map_congr_left hmap]
  simp

/-- The directory-creation targets among a list of walk actions. -/
def mkdirsOf (acts : List WalkAction) : List String :=
  acts.filterMap (fun a =>
    match a with
    | .mkdirA p => some p
    | _ => none)

/-- Stated from the claim's wording (for comparison with the embedded
walk): the chapter directory paths the walk is claimed to create, the
`k`-th chapter entry (counting from `k₀`) getting
`{k zero-padded to width}_{sanitized title}` under the course root. -/
def specChapterDirNames (pv : String → String) (save_dir : String) (width : ℕ) :
    ℕ → List CourseContent → List String
  | _, [] => []
  | k, c :: rest =>
    if c.is_chapter then
      os_path_join save_dir
          (zfill (toString k) width ++ "_" ++ sanitize_filename pv c.title)
        :: specChapterDirNames pv save_dir width (k + 1) rest
    else
      specChapterDirNames pv save_dir width k rest

theorem mkdirsOf_append (l1 l2 : List WalkAction) :
    mkdirsOf (l1 ++ l2) = mkdirsOf l1 ++ mkdirsOf l2 :=
  List.filterMap_append l1 l2 _

/-- The video `try` block performs no directory creation. -/
theorem mkdirsOf_lecture_video_step (pv : String → String) (save_dir : String)
    (st : WalkState) (content_title : String) (a : Asset) :
    mkdirsOf (lecture_video_step pv save_dir st content_title a) = [] := by
  rcases hsu : a.stream_urls with _ | su
  · simp [lecture_video_step, hsu, mkdirsOf]
  · rcases hq : su.get_mp4_by_quality "720" with _ | v <;>
      simp [lecture_video_step, hsu, hq, mkdirsOf]

/-- The supplementary-assets loop performs no directory creation. -/
theorem mkdirsOf_supplementary_assets_step (pv : String → String)
    (save_dir chapter_dir : String) (assets : List Asset) :
    mkdirsOf (supplementary_assets_step pv save_dir chapter_dir assets) = [] := by
  rw [mkdirsOf, List.filterMap_eq_nil_iff]
  intro a ha
  simp only [supplementary_assets_step, List.mem_flatten, List.mem_map] at ha
  obtain ⟨l, ⟨s_asset, _, rfl⟩, hal⟩ := ha
  rcases List.mem_append.mp hal with h | h
  · rcases hsu : s_asset.stream_urls with _ | su
    · rw [hsu] at h
      simp at h
    · rw [hsu] at h
      obtain ⟨v, _, rfl⟩ := List.mem_map.mp h
      rfl
  · rcases hdu : s_asset.download_urls with _ | du
    · rw [hdu] at h
      simp at h
    · rw [hdu] at h
      obtain ⟨f, _, rfl⟩ := List.mem_map.mp h
      rfl

/-- `process_content` on a chapter entry: report progress, (re)create the
chapter directory named from the current chapter counter, bump the
counter. -/
theorem process_content_chapter (pv : String → String) (isdir : String → Bool)
    (save_dir : String) (total width current : ℕ) (st : WalkState)
    (content : CourseContent)
    (h : content.course_content_type = CourseContentType.CHAPTER) :
    process_content pv isdir save_dir total width current st content
      = ([WalkAction.printProgressA total current]
          ++ (if isdir (os_path_join save_dir (sanitize_filename pv
                  (zfill (toString st.chapter_number) width ++ "_" ++ content.title)))
              then [WalkAction.rmtreeA (os_path_join save_dir (sanitize_filename pv
                  (zfill (toString st.chapter_number) width ++ "_" ++ content.title)))]
              else [])
          ++ [WalkAction.mkdirA (os_path_join save_dir (sanitize_filename pv
                (zfill (toString st.chapter_number) width ++ "_" ++ content.title)))],
         .ok { st with
                chapter_number := st.chapter_number + 1
                chapter_dir := sanitize_filename pv
                  (zfill (toString st.chapter_number) width ++ "_" ++ content.title) }) := by
  simp [process_content, CourseContent.is_chapter, CourseContent.is_lecture, h]

/-- `process_content` on a quiz entry: only the progress report. -/
theorem process_content_quiz (pv : String → String) (isdir : String → Bool)
    (save_dir : String) (total width current : ℕ) (st : WalkState)
    (content : CourseContent)
    (h : content.course_content_type = CourseContentType.QUIZ) :
    process_content pv isdir save_dir total width current st content
      = ([WalkAction.printProgressA total current], .ok st) := by
  simp [process_content, CourseContent.is_chapter, CourseContent.is_lecture, h]

/-- `process_content` on a lecture entry with no asset:
`content.asset.is_video()` is attribute access on `None`, an uncaught
`AttributeError`. -/
theorem process_content_lecture_no_asset (pv : String → String)
    (isdir : String → Bool) (save_dir : String) (total width current : ℕ)
    (st : WalkState) (content : CourseContent)
    (h : content.course_content_type = CourseContentType.LECTURE)
    (ha : content.asset = none) :
    process_content pv isdir save_dir total width current st content
      = ([WalkAction.printProgressA total current],
         .error (.attributeError "'NoneType' object has no attribute 'is_video'")) := by
  simp [process_content, CourseContent.is_chapter, CourseContent.is_lecture, h, ha]

/-- `process_content` on a lecture entry whose supplementary-assets
collection is absent: `content.supplementary_assets.supplementary_assets`
is attribute access on `None`, an uncaught `AttributeError` (the primary
asset's video/article handling has already run). -/
theorem process_content_lecture_no_supp (pv : String → String)
    (isdir : String → Bool) (save_dir : String) (total width current : ℕ)
    (st : WalkState) (content : CourseContent) (a : Asset)
    (h : content.course_content_type = CourseContentType.LECTURE)
    (ha : content.asset = some a)
    (hs : content.supplementary_assets = none) :
    process_content pv isdir save_dir total width current st content
      = ([WalkAction.printProgressA total current]
          ++ (if a.is_video then lecture_video_step pv save_dir st content.title a
              else [])
          ++ (if a.is_article then
                [WalkAction.writeHtmlA
                  (os_path_join save_dir (os_path_join st.chapter_dir
                    (content.title ++ ".html")))
                  (if pyStrTruthy a.body then a.body else a.description)]
              else []),
         .error (.attributeError
           "'NoneType' object has no attribute 'supplementary_assets'")) := by
  simp [process_content, CourseContent.is_chapter, CourseContent.is_lecture, h, ha, hs]

/-- `process_content` on a lecture entry with asset and supplementary
assets present: the video/article handling, the supplementary loop, and
the lecture-counter bump. -/
theorem process_content_lecture_ok (pv : String → String)
    (isdir : String → Bool) (save_dir : String) (total width current : ℕ)
    (st : WalkState) (content : CourseContent) (a : Asset)
    (sa : SupplementaryAssets)
    (h : content.course_content_type = CourseContentType.LECTURE)
    (ha : content.asset = some a)
    (hs : content.supplementary_assets = some sa) :
    process_content pv isdir save_dir total width current st content
      = ([WalkAction.printProgressA total current]
          ++ (if a.is_video then lecture_video_step pv save_dir st content.title a
              else [])
          ++ (if a.is_article then
                [WalkAction.writeHtmlA
                  (os_path_join save_dir (os_path_join st.chapter_dir
                    (content.title ++ ".html")))
                  (if pyStrTruthy a.body then a.body else a.description)]
              else [])
          ++ supplementary_assets_step pv save_dir st.chapter_dir
              sa.supplementary_assets,
         .ok { st with lecture_number := st.lecture_number + 1 }) := by
  simp [process_content, CourseContent.is_chapter, CourseContent.is_lecture, h, ha, hs]

/-- The walk's directory creations follow the claimed naming scheme:
starting from chapter counter `st.chapter_number`, each chapter entry in
turn creates `{counter zero-padded to width}_{sanitized title}` under the
course root and bumps the counter by one; no other entry creates a
directory, and under the well-formedness hypothesis (every lecture carries
an asset and a supplementary-assets collection) the walk completes. -/
theorem download_loop_chapters (pv : String → String) (isdir : String → Bool)
    (save_dir : String) (total width : ℕ)
    (hpv : ∀ p t : String, (∀ c ∈ p.data, c.isDigit = true ∨ c = '_') →
      pv (p ++ t) = p ++ pv t) :
    ∀ (contents : List CourseContent) (current : ℕ) (st : WalkState),
      (∀ c ∈ contents, c.course_content_type = CourseContentType.LECTURE →
        c.asset ≠ none ∧ c.supplementary_assets ≠ none) →
      mkdirsOf (download_loop pv isdir save_dir total width current st contents).1
          = specChapterDirNames pv save_dir width st.chapter_number contents
        ∧ (download_loop pv isdir save_dir total width current st contents).2 = none := by
  intro contents
  induction contents with
  | nil => exact fun current st _ => ⟨rfl, rfl⟩
  | cons c rest ih =>
    intro current st h
    have hrest : ∀ d ∈ rest, d.course_content_type = CourseContentType.LECTURE →
        d.asset ≠ none ∧ d.supplementary_assets ≠ none :=
      fun d hd => h d (List.mem_cons_of_mem c hd)
    have hname : sanitize_filename pv
        (zfill (toString st.chapter_number) width ++ "_" ++ c.title)
        = (zfill (toString st.chapter_number) width ++ "_")
            ++ sanitize_filename pv c.title :=
      sanitize_filename_append pv _ c.title
        (zfill_prefix_chars st.chapter_number width)
        (hpv _ c.title (zfill_prefix_chars st.chapter_number width))
    cases htype : c.course_content_type with
    | CHAPTER =>
      obtain ⟨ih1, ih2⟩ := ih (current + 1)
        { st with
            chapter_number := st.chapter_number + 1
            chapter_dir := sanitize_filename pv
              (zfill (toString st.chapter_number) width ++ "_" ++ c.title) } hrest
      simp only [download_loop,
        process_content_chapter pv isdir save_dir total width current st c htype]
      constructor
      · rw [mkdirsOf_append, mkdirsOf_append, mkdirsOf_append]
        rw [specChapterDirNames]
        simp only [CourseContent.is_chapter, htype, decide_eq_true_eq, if_true]
        have hup : ({ st with
            chapter_number := st.chapter_number + 1
            chapter_dir := sanitize_filename pv
              (zfill (toString st.chapter_number) width ++ "_" ++ c.title) }
              : WalkState).chapter_number = st.chapter_number + 1 := rfl
        rw [ih1, hup]
        have hmk0 : mkdirsOf [WalkAction.printProgressA total current] = [] := rfl
        have hmk1 : mkdirsOf (if isdir (os_path_join save_dir (sanitize_filename pv
            (zfill (toString st.chapter_number) width ++ "_" ++ c.title)))
            then [WalkAction.rmtreeA (os_path_join save_dir (sanitize_filename pv
              (zfill (toString st.chapter_number) width ++ "_" ++ c.title)))]
            else []) = [] := by
          split <;> rfl
        rw [hmk0, hmk1, hname]
        rfl
      · exact ih2
    | LECTURE =>
      obtain ⟨ha, hs⟩ := h c (List.mem_cons_self c rest) htype
      obtain ⟨a, ha⟩ := Option.ne_none_iff_exists'.mp ha
      obtain ⟨sa, hs⟩ := Option.ne_none_iff_exists'.mp hs
      obtain ⟨ih1, ih2⟩ := ih (current + 1)
        { st with lecture_number := st.lecture_number + 1 } hrest
      simp only [download_loop,
        process_content_lecture_ok pv isdir save_dir total width current st c a sa
          htype ha hs]
      constructor
      · rw [mkdirsOf_append, mkdirsOf_append, mkdirsOf_append, mkdirsOf_append]
        rw [specChapterDirNames]
        simp only [CourseContent.is_chapter, htype]
        have hup : ({ st with lecture_number := st.lecture_number + 1 }
            : WalkState).chapter_number = st.chapter_number := rfl
        rw [ih1, hup]
        have hmk0 : mkdirsOf [WalkAction.printProgressA total current] = [] := rfl
        have hmk1 : mkdirsOf (if a.is_video
            then lecture_video_step pv save_dir st c.title a else []) = [] := by
          split
          · exact mkdirsOf_lecture_video_step pv save_dir st c.title a
          · rfl
        have hmk2 : mkdirsOf (if a.is_article then
            [WalkAction.writeHtmlA
              (os_path_join save_dir (os_path_join st.chapter_dir
                (c.title ++ ".html")))
              (if pyStrTruthy a.body then a.body else a.description)]
            else []) = [] := by
          split <;> rfl
        rw [hmk0, hmk1, hmk2,
          mkdirsOf_supplementary_assets_step pv save_dir st.chapter_dir
            sa.supplementary_assets]
        simp
      · exact ih2
    | QUIZ =>
      obtain ⟨ih1, ih2⟩ := ih (current + 1) st hrest
      simp only [download_loop,
        process_content_quiz pv isdir save_dir total width current st c htype]
      constructor
      · rw [mkdirsOf_append, specChapterDirNames]
        simp only [CourseContent.is_chapter, htype]
        rw [ih1]
        rfl
      · exact ih2

/-- C8: in `download_all_contents`, the zero-padding width equals the
number of decimal digits of the total content-item count
(`len(str(total))`); the default pre-chapter directory name is `"0"`
zero-padded to that width followed by `"_init"`; and — provided the
abstracted `pathvalidate` pass commutes with digit/underscore prefixes and
every lecture entry carries its asset and supplementary-assets collection
so the walk completes — the chapter directories created are exactly, in
order, `{k zero-padded to that width}_{sanitized title}` for the `k`-th
chapter entry, `k` starting at 1 and stepping by one per chapter entry
(the recursion of `specChapterDirNames`). -/
theorem download_all_contents_naming (pv : String → String) (isdir : String → Bool)
    (save_dir : String) (contents : List CourseContent)
    (hpv : ∀ p t : String, (∀ c ∈ p.data, c.isDigit = true ∨ c = '_') →
      pv (p ++ t) = p ++ pv t)
    (hwf : ∀ c ∈ contents, c.course_content_type = CourseContentType.LECTURE →
      c.asset ≠ none ∧ c.supplementary_assets ≠ none) :
    dirname_prefix_digits contents.length
        = (Nat.toDigits 10 contents.length).length
    ∧ init_chapter_dir (dirname_prefix_digits contents.length)
        = zfill (toString 0) (dirname_prefix_digits contents.length) ++ "_init"
    ∧ mkdirsOf (download_all_contents_walk pv isdir save_dir contents).1
        = specChapterDirNames pv save_dir
            (dirname_prefix_digits contents.length) 1 contents
    ∧ (download_all_contents_walk pv isdir save_dir contents).2 = none := by
  have h := download_loop_chapters pv isdir save_dir contents.length
    (dirname_prefix_digits contents.length) hpv contents 1
    ⟨1, 1, init_chapter_dir (dirname_prefix_digits contents.length)⟩ hwf
  exact ⟨rfl, rfl, h.1, h.2⟩

/-- The 10-item course (2 chapters, 8 lectures) of the claim's example. -/
def exampleCourseContents : List CourseContent :=
  [⟨7, 1, .CHAPTER, "Intro", "", none, none⟩,
   ⟨7, 2, .LECTURE, "L1", "", some ⟨21, .FILE, "n1", "", "", none, none⟩, some ⟨[]⟩⟩,
   ⟨7, 3, .LECTURE, "L2", "", some ⟨22, .FILE, "n2", "", "", none, none⟩, some ⟨[]⟩⟩,
   ⟨7, 4, .LECTURE, "L3", "", some ⟨23, .FILE, "n3", "", "", none, none⟩, some ⟨[]⟩⟩,
   ⟨7, 5, .LECTURE, "L4", "", some ⟨24, .FILE, "n4", "", "", none, none⟩, some ⟨[]⟩⟩,
   ⟨7, 6, .CHAPTER, "Advanced", "", none, none⟩,
   ⟨7, 7, .LECTURE, "L5", "", some ⟨25, .FILE, "n5", "", "", none, none⟩, some ⟨[]⟩⟩,
   ⟨7, 8, .LECTURE, "L6", "", some ⟨26, .FILE, "n6", "", "", none, none⟩, some ⟨[]⟩⟩,
   ⟨7, 9, .LECTURE, "L7", "", some ⟨27, .FILE, "n7", "", "", none, none⟩, some ⟨[]⟩⟩,
   ⟨7, 10, .LECTURE, "L8", "", some ⟨28, .FILE, "n8", "", "", none, none⟩, some ⟨[]⟩⟩]

/-- Witness for C8: 10 content items give padding width 2, default
directory `00_init`, and chapter directories `01_Intro`, `02_Advanced`. -/
theorem download_all_contents_naming_witness :
    (∀ c ∈ exampleCourseContents,
      c.course_content_type = CourseContentType.LECTURE →
      c.asset ≠ none ∧ c.supplementary_assets ≠ none)
    ∧ dirname_prefix_digits exampleCourseContents.length = 2
    ∧ init_chapter_dir (dirname_prefix_digits exampleCourseContents.length)
        = "00_init"
    ∧ mkdirsOf (download_all_contents_walk id (fun _ => false) "out"
          exampleCourseContents).1
        = ["out/01_Intro", "out/02_Advanced"] := by
  have h := download_all_contents_naming id (fun _ => false) "out"
    exampleCourseContents (fun p t _ => rfl) (by decide)
  refine ⟨by decide, by decide, by decide, ?_⟩
  rw [h.2.2.1]
  decide

/-- C10: the `except AttributeError` recovery covers only the
video-stream lookup/download step.  For a lecture entry: a missing asset
makes `content.asset.is_video()` raise an uncaught `AttributeError`,
aborting the walk with only the progress report performed; a missing
supplementary-assets collection makes
`content.supplementary_assets.supplementary_assets` raise an uncaught
`AttributeError`, aborting the walk; whereas a video asset with missing
stream data only triggers the caught, reported skip and the walk
continues into the remaining contents. -/
theorem download_walk_recovery_scope (pv : String → String) (isdir : String → Bool)
    (save_dir : String) (total width current : ℕ) (st : WalkState)
    (c : CourseContent) (rest : List CourseContent)
    (hlec : c.course_content_type = CourseContentType.LECTURE) :
    (c.asset = none →
      download_loop pv isdir save_dir total width current st (c :: rest)
        = ([.printProgressA total current],
           some (.attributeError "'NoneType' object has no attribute 'is_video'")))
    ∧ (∀ a : Asset, c.asset = some a → c.supplementary_assets = none →
        (download_loop pv isdir save_dir total width current st (c :: rest)).2
          = some (.attributeError
              "'NoneType' object has no attribute 'supplementary_assets'"))
    ∧ (∀ (a : Asset) (sa : SupplementaryAssets), c.asset = some a →
        a.asset_type = AssetType.VIDEO → a.stream_urls = none →
        c.supplementary_assets = some sa →
        download_loop pv isdir save_dir total width current st (c :: rest)
          = ([.printProgressA total current,
              .printNotAvailableA c.title st.lecture_number]
              ++ supplementary_assets_step pv save_dir st.chapter_dir
                  sa.supplementary_assets
              ++ (download_loop pv isdir save_dir total width (current + 1)
                    { st with lecture_number := st.lecture_number + 1 } rest).1,
             (download_loop pv isdir save_dir total width (current + 1)
                { st with lecture_number := st.lecture_number + 1 } rest).2)) := by
  refine ⟨?_, ?_, ?_⟩
  · intro ha
    simp only [download_loop,
      process_content_lecture_no_asset pv isdir save_dir total width current st c
        hlec ha]
  · intro a ha hs
    simp only [download_loop,
      process_content_lecture_no_supp pv isdir save_dir total width current st c a
        hlec ha hs]
  · intro a sa ha hv hsu hs
    have hvid : a.is_video = true := by simp [Asset.is_video, hv]
    have hart : a.is_article = false := by simp [Asset.is_article, hv]
    simp only [download_loop,
      process_content_lecture_ok pv isdir save_dir total width current st c a sa
        hlec ha hs, hvid, hart, if_true, if_false, lecture_video_step, hsu]
    simp

/-- Witness for C10: three one-lecture walks — no asset (abort), no
supplementary collection (abort), video with no stream data (reported
skip, walk completes). -/
theorem download_walk_recovery_scope_witness :
    download_loop id (fun _ => false) "out" 10 2 1 ⟨1, 1, "00_init"⟩
        [⟨7, 2, .LECTURE, "L", "", none, none⟩]
      = ([.printProgressA 10 1],
         some (.attributeError "'NoneType' object has no attribute 'is_video'"))
    ∧ (download_loop id (fun _ => false) "out" 10 2 1 ⟨1, 1, "00_init"⟩
        [⟨7, 3, .LECTURE, "L", "", some ⟨21, .FILE, "n", "", "", none, none⟩,
          none⟩]).2
      = some (.attributeError
          "'NoneType' object has no attribute 'supplementary_assets'")
    ∧ download_loop id (fun _ => false) "out" 10 2 1 ⟨1, 1, "00_init"⟩
        [⟨7, 4, .LECTURE, "L", "", some ⟨22, .VIDEO, "n", "", "", none, none⟩,
          some ⟨[]⟩⟩]
      = ([.printProgressA 10 1, .printNotAvailableA "L" 1], none) := by
  refine ⟨?_, ?_, ?_⟩
  · exact (download_walk_recovery_scope id (fun _ => false) "out" 10 2 1
      ⟨1, 1, "00_init"⟩ ⟨7, 2, .LECTURE, "L", "", none, none⟩ [] rfl).1 rfl
  · exact (download_walk_recovery_scope id (fun _ => false) "out" 10 2 1
      ⟨1, 1, "00_init"⟩ ⟨7, 3, .LECTURE, "L", "",
        some ⟨21, .FILE, "n", "", "", none, none⟩, none⟩ [] rfl).2.1
      ⟨21, .FILE, "n", "", "", none, none⟩ rfl rfl
  · exact ((download_walk_recovery_scope id (fun _ => false) "out" 10 2 1
      ⟨1, 1, "00_init"⟩ ⟨7, 4, .LECTURE, "L", "",
        some ⟨22, .VIDEO, "n", "", "", none, none⟩, some ⟨[]⟩⟩ [] rfl).2.2
      ⟨22, .VIDEO, "n", "", "", none, none⟩ ⟨[]⟩ rfl rfl rfl rfl).trans (by decide)

end NeoUdeler
